import Mathlib

/-!
# Billboard dashboard core — shallow embedding

A shallow embedding of the core of `src/app.py` (a Streamlit + SQLite
billboard-rental dashboard) and proofs about it.

Modelling choices, stated once:

* The SQLite table `billboards` has the twenty TEXT columns of `COLUMNS`,
  so a persisted row is a `List String` of length 20 aligned with
  `COLUMNS`, and the database is a `List Row` in rowid order (the table is
  only ever appended to, so rowid order is insertion order and
  `SELECT rowid … fetchone()` returns the first match in list order).
* A Python dict passed to `save_row_to_db` is an association list
  `List (String × Option String)`: a key mapped to `none` models the
  Python value `None`; `some s` models a value whose `str()` is `s`
  (for the strings the call sites pass, `s` itself).
* Python numbers are modelled by `ℚ` (the call sites only ever hold exact
  decimal values), dates by their day number (days since 1970-01-01), and
  a function body that can raise is modelled in `Except String`, with the
  surrounding `try/except` catching the error.
-/

namespace Billboard

/-- The fixed schema of the `billboards` table (`COLUMNS` in `app.py`). -/
def COLUMNS : List String :=
  ["S No.", "Billboard ID", "Location / Address", "Billboard Size",
   "Client Name", "Company Name", "Contact Number", "Email",
   "Contract Start Date", "Contract End Date", "Rental Duration",
   "Rent Amount (PKR)", "Advance Received (PKR)", "Balance / Credit (PKR)",
   "Payment Status", "Contract Status", "Days Remaining",
   "Remarks / Notes", "Billboard Image / Link", "Partner’s Share"]

/-- `PAYMENT_OPTIONS` in `app.py`. -/
def PAYMENT_OPTIONS : List String := ["Paid", "Unpaid", "Partial"]

/-- `CONTRACT_OPTIONS` in `app.py`. -/
def CONTRACT_OPTIONS : List String := ["Active", "Expired", "Pending"]

/-- A persisted row: one string per column of `COLUMNS`, in order. -/
abbrev Row := List String

/-- A Python value in a row dict: `none` is Python `None`; `some s` is a
value whose `str()` is `s`. -/
abbrev Val := Option String

/-- A Python dict keyed by column name (`row_dict` in `app.py`). -/
abbrev RowDict := List (String × Val)

/-- A database state: the rows of the `billboards` table in rowid order. -/
abbrev DB := List Row

/-- A database is well formed when every row has one value per column;
SQLite guarantees this for a table created with the `COLUMNS` schema. -/
@[reducible] def WF (db : DB) : Prop := ∀ row ∈ db, List.length row = COLUMNS.length

/-- Python `str(row_dict.get(col, ""))`: absent key gives `str("") = ""`,
a `None` value gives `str(None) = "None"`, any other value its `str()`. -/
def pyGetStr (v : Option Val) : String :=
  match v with
  | none => ""
  | some none => "None"
  | some (some s) => s

/-- The value an UPDATE writes for a column present in the dict, retaining
the old cell otherwise: `str(row_dict[col]) if row_dict[col] is not None
else ""` (line 88 of `app.py`). -/
def updVal (old : String) (v : Option Val) : String :=
  match v with
  | none => old
  | some none => ""
  | some (some s) => s

/-- `s_no = str(row_dict.get("S No.", ""))` (line 76): the lookup key,
compared as text. -/
def dictSNo (rd : RowDict) : String := pyGetStr (List.lookup "S No." rd)

/-- The "S No." cell of a persisted row (column 0 of the schema). -/
def rowSNo (row : Row) : String := row.getD 0 ""

/-- The row the INSERT branch writes (lines 94–96):
`[str(row_dict.get(col, "")) for col in COLUMNS]`. -/
def insertRowOf (rd : RowDict) : Row :=
  COLUMNS.map (fun c => pyGetStr (List.lookup c rd))

/-- The row the UPDATE branch leaves behind (lines 83–91): every column
present in the dict is overwritten (`None` becoming `""`), every other
column keeps its stored value. -/
def updateRow (rd : RowDict) (row : Row) : Row :=
  (COLUMNS.zip row).map (fun p => updVal p.2 (List.lookup p.1 rd))

/-- `save_row_to_db` (lines 69–98): look up the first row whose
"S No." equals the dict's key as text; update it if found, otherwise
append a freshly built row at the end of the table. -/
def save_row_to_db (db : DB) (rd : RowDict) : DB :=
  match db with
  | [] => [insertRowOf rd]
  | row :: rest =>
      if rowSNo row = dictSNo rd then updateRow rd row :: rest
      else row :: save_row_to_db rest rd

/-- `load_df_from_db` (lines 56–67): `SELECT rowid, *` returns every row in
rowid order; the schema always carries all twenty columns, so the
back-fill loop for missing columns never fires and the later column
reordering keeps "S No." first, where it already is. The observable
result is the table's rows in order. -/
def load_df_from_db (db : DB) : DB := db

/-- The 50 blank seed rows of `initialize_db` (lines 47–52):
row `i` is `[str(i), "", …, ""]` for `i = 1..50`. -/
def seedRows : DB :=
  (List.range 50).map (fun i => toString (i + 1) :: List.replicate (COLUMNS.length - 1) "")

/-- `initialize_db` (lines 34–54), modelled on the table contents: when the
table holds no rows, insert the 50 blank numbered rows; otherwise leave
the table unchanged. (Named `init_db` here.) -/
def init_db (db : DB) : DB :=
  if db.length = 0 then seedRows else db

/-- The dict a full in-memory record corresponds to: every column present,
bound to its (non-`None`) string value. Both call sites of
`save_row_to_db` build such a dict (lines 237–244 and 322–348). -/
def Row.toDict (rec : Row) : RowDict := COLUMNS.zip (rec.map some)

/-- The stored cell of `row` for the named schema column. -/
def getField (row : Row) (c : String) : String := row.getD (COLUMNS.indexOf c) ""

/-! ## Numeric coercion (`safe_float`, lines 106–112) -/

/-- The value of a digit string, most significant first. -/
def digitsToNat (cs : List Char) : ℕ :=
  cs.foldl (fun n c => n * 10 + (c.toNat - 48)) 0

/-- Python `float(s)` on an (already cleaned) plain decimal literal:
optional sign, then digits with an optional fractional part; anything else
raises `ValueError`. Models the Python builtin on the decimal inputs this
program feeds it. -/
def parseUnsigned (cs : List Char) : Option ℚ :=
  let intPart := cs.takeWhile Char.isDigit
  match cs.dropWhile Char.isDigit with
  | [] => if intPart.isEmpty then none else some (digitsToNat intPart)
  | '.' :: frac =>
      if frac.all Char.isDigit && !(intPart.isEmpty && frac.isEmpty) then
        some ((digitsToNat intPart : ℚ) + (digitsToNat frac : ℚ) / 10 ^ frac.length)
      else none
  | _ => none

/-- `float(s)` with an optional leading sign (see `parseUnsigned`). -/
def parseDecimal (cs : List Char) : Option ℚ :=
  match cs with
  | '+' :: rest => parseUnsigned rest
  | '-' :: rest => (parseUnsigned rest).map (fun q => -q)
  | _ => parseUnsigned cs

/-- Python `str.strip()`: drop leading and trailing whitespace. -/
def pyStrip (cs : List Char) : List Char :=
  ((cs.dropWhile Char.isWhitespace).reverse.dropWhile Char.isWhitespace).reverse

/-- `str(x).replace(",", "").strip()` (line 110). -/
def cleanNumText (s : String) : List Char :=
  pyStrip (s.data.filter (fun c => c ≠ ','))

/-- The body of `safe_float` inside its `try` (lines 107–110): the input is
a missing value (`none`, Python `None`/`NaN`, caught by `pd.isna`) or a
string; `float` on an unparseable string raises `ValueError`. -/
def safe_floatBody (x : Option String) : Except String ℚ :=
  match x with
  | none => Except.ok 0
  | some s =>
      if s = "" then Except.ok 0
      else
        match parseDecimal (cleanNumText s) with
        | some q => Except.ok q
        | none => Except.error "ValueError"

/-- `safe_float` with its `except: return 0.0` handler (lines 106–112),
kept in `Except` to record that the handler catches every failure. -/
def safe_floatE (x : Option String) : Except String ℚ :=
  match safe_floatBody x with
  | Except.ok v => Except.ok v
  | Except.error _ => Except.ok 0

/-- `safe_float` (lines 106–112) as the total function the callers see. -/
def safe_float (x : Option String) : ℚ :=
  match safe_floatE x with
  | Except.ok v => v
  | Except.error _ => 0

/-! ## Balance (`round(rent - adv, 2)`, lines 243 and 338) -/

/-- Round a rational to the nearest integer, ties to even — the rounding
Python's builtin `round` performs. -/
def roundHalfEvenQ (q : ℚ) : ℤ :=
  if q - ⌊q⌋ < 1 / 2 then ⌊q⌋
  else if 1 / 2 < q - ⌊q⌋ then ⌊q⌋ + 1
  else if ⌊q⌋ % 2 = 0 then ⌊q⌋ else ⌊q⌋ + 1

/-- Python `round(q, 2)` on the exact decimal values this program feeds it. -/
def round2 (q : ℚ) : ℚ := (roundHalfEvenQ (q * 100) : ℚ) / 100

/-- The balance value the inline-edit save loop computes for a grid row
(lines 241–243): `round(safe_float(rent text) - safe_float(advance text), 2)`. -/
def inline_balance (row : Row) : ℚ :=
  round2 (safe_float (some (getField row "Rent Amount (PKR)")) -
          safe_float (some (getField row "Advance Received (PKR)")))

/-- The balance value the "Apply changes" handler computes from the two
number inputs (line 338): `round(rent - adv, 2)`. -/
def apply_changes_balance (rent adv : ℚ) : ℚ := round2 (rent - adv)

/-! ## Dates (`calc_days_remaining`, lines 114–128)

A calendar date is identified with its day number (days since
1970-01-01), via the standard civil-calendar conversion. -/

/-- Gregorian leap-year test. -/
def isLeap (y : ℤ) : Bool := (y % 4 = 0 && y % 100 ≠ 0) || y % 400 = 0

/-- Number of days in month `m` of year `y`. -/
def daysInMonth (y : ℤ) (m : ℕ) : ℕ :=
  if m = 2 then (if isLeap y then 29 else 28)
  else if m = 4 ∨ m = 6 ∨ m = 9 ∨ m = 11 then 30 else 31

/-- `1 ≤ m ≤ 12` and `1 ≤ d ≤ daysInMonth y m`. -/
def validDate (y : ℤ) (m d : ℕ) : Bool :=
  1 ≤ m && m ≤ 12 && 1 ≤ d && d ≤ daysInMonth y m

/-- Day number of the civil date `y-m-d` relative to 1970-01-01 (the
classic days-from-civil computation, exact for every Gregorian date). -/
def daysFromCivil (y : ℤ) (m d : ℕ) : ℤ :=
  let y' : ℤ := if m ≤ 2 then y - 1 else y
  let era : ℤ := (if 0 ≤ y' then y' else y' - 399) / 400
  let yoe : ℤ := y' - era * 400
  let mp : ℕ := (m + 9) % 12
  let doy : ℤ := (153 * (mp : ℤ) + 2) / 5 + (d : ℤ) - 1
  let doe : ℤ := yoe * 365 + yoe / 4 - yoe / 100 + doy
  era * 146097 + doe - 719468

/-- The date when `y-m-d` is a real calendar date, else `none`. -/
def mkDate (y : ℤ) (m d : ℕ) : Option ℤ :=
  if validDate y m d then some (daysFromCivil y m d) else none

/-- Split a character list at every separator, keeping empty pieces —
the usual split semantics (`"a/b"` gives two pieces, `""` gives one). -/
def splitCharList (p : Char → Bool) : List Char → List (List Char)
  | [] => [[]]
  | c :: rest =>
      if p c then [] :: splitCharList p rest
      else
        match splitCharList p rest with
        | [] => [[c]]
        | h :: t => (c :: h) :: t

/-- A component of a date string as a number, when it is all digits. -/
def parseNatPart (cs : List Char) : Option ℕ :=
  if !cs.isEmpty && cs.all Char.isDigit then some (digitsToNat cs) else none

/-- `pd.to_datetime(s, dayfirst=True, errors="coerce")` on the formats the
program stores (`D/M/YYYY`, `D-M-YYYY` and ISO `YYYY-MM-DD`): three
numeric components; a four-digit first component is read year-first (ISO),
otherwise the day-first reading is preferred and the month-first reading
is the fallback when day-first is not a real date; anything else coerces
to `NaT` (`none`). -/
def parseDateDayFirst (s : String) : Option ℤ :=
  match splitCharList (fun c => c = '/' || c = '-') (pyStrip s.data) with
  | [a, b, c] =>
      match parseNatPart a, parseNatPart b, parseNatPart c with
      | some x, some y, some z =>
          if a.length = 4 then mkDate (x : ℤ) y z
          else if c.length = 4 then
            match mkDate (z : ℤ) y x with
            | some n => some n
            | none => mkDate (z : ℤ) x y
          else none
      | _, _, _ => none
  | _ => none

/-- The body of `calc_days_remaining` inside its `try` (lines 115–126),
for missing (`none`) or string input: missing or empty text returns the
empty value, `errors="coerce"` turns a failed parse into `NaT` which
returns the empty value, and otherwise the result is
`(end.date() - date.today()).days`. On these inputs no step raises. -/
def calc_days_remainingBody (today : ℤ) (x : Option String) : Except String (Option ℤ) :=
  match x with
  | none => Except.ok none
  | some s =>
      if s = "" then Except.ok none
      else if (pyStrip s.data).isEmpty then Except.ok none
      else
        match parseDateDayFirst s with
        | none => Except.ok none
        | some d => Except.ok (some (d - today))

/-- `calc_days_remaining` with its `except: return ""` handler
(lines 114–128), kept in `Except` to record that the handler catches
every failure. -/
def calc_days_remainingE (today : ℤ) (x : Option String) : Except String (Option ℤ) :=
  match calc_days_remainingBody today x with
  | Except.ok v => Except.ok v
  | Except.error _ => Except.ok none

/-- `calc_days_remaining` (lines 114–128) as the total function the
callers see: `some n` is the integer result, `none` the empty value. -/
def calc_days_remaining (today : ℤ) (x : Option String) : Option ℤ :=
  match calc_days_remainingE today x with
  | Except.ok v => v
  | Except.error _ => none

/-! ## Filter/search evaluator (lines 163–177)

`pandas.Series.str.contains(pat, case=False, na=False)` treats the query
as a regular expression (`regex=True` is the pandas default) compiled with
`re.IGNORECASE`, and raises `re.error` on an invalid pattern. The regex
engine is modelled below on the fragment of Python `re` these filters can
meet with plain text and the usual metacharacters: literals, `.`, `|`,
`*`, `+`, `?` (each optionally followed by the lazy `?`, which does not
change the matched language), groups, character classes with ranges and
negation, punctuation escapes and the classes `\d`, `\w`, `\s`, `\n`,
`\t`, `\r`. Anchors, counted repetition, named groups, backreferences and
in-pattern flags are outside the modelled fragment. Case-insensitivity is
modelled by lowercasing literals and class ranges at compile time and the
searched text at match time. -/

instance : DecidableEq (Except String (List Row)) := fun x y =>
  match x, y with
  | Except.ok a, Except.ok b =>
      if h : a = b then isTrue (by rw [h])
      else isFalse (fun hab => h (Except.ok.inj hab))
  | Except.ok _, Except.error _ => isFalse (fun hab => Except.noConfusion hab)
  | Except.error _, Except.ok _ => isFalse (fun hab => Except.noConfusion hab)
  | Except.error a, Except.error b =>
      if h : a = b then isTrue (by rw [h])
      else isFalse (fun hab => h (Except.error.inj hab))

/-- When no stored row carries the dict's key, `save_row_to_db` appends the
freshly built row at the end of the table. -/
lemma save_of_no_match (db : DB) (rd : RowDict)
    (h : ∀ r ∈ db, rowSNo r ≠ dictSNo rd) :
    save_row_to_db db rd = db ++ [insertRowOf rd] := by
  induction db with
  | nil => rfl
  | cons r rest ih =>
      have hr : rowSNo r ≠ dictSNo rd := h r (List.mem_cons_self r rest)
      simp only [save_row_to_db, if_neg hr, List.cons_append]
      exact congrArg (r :: ·) (ih fun x hx => h x (List.mem_cons_of_mem r hx))

/-- When the dict's key first matches the row between `pre` and `post`,
`save_row_to_db` rewrites exactly that row and nothing else. -/
lemma save_of_first_match (rd : RowDict) (pre : DB) (row : Row) (post : DB)
    (hpre : ∀ r ∈ pre, rowSNo r ≠ dictSNo rd) (hm : rowSNo row = dictSNo rd) :
    save_row_to_db (pre ++ row :: post) rd = pre ++ updateRow rd row :: post := by
  induction pre with
  | nil => simp only [List.nil_append, save_row_to_db, if_pos hm]
  | cons r rest ih =>
      have hr : rowSNo r ≠ dictSNo rd := hpre r (List.mem_cons_self r rest)
      simp only [List.cons_append, save_row_to_db, if_neg hr]
      exact congrArg (r :: ·) (ih fun x hx => hpre x (List.mem_cons_of_mem r hx))

/-- The key a full record's dict is looked up under is the record's own
serial number. -/
lemma dictSNo_toDict (rec : Row) (h : rec.length = COLUMNS.length) :
    dictSNo (Row.toDict rec) = rowSNo rec :=
  match rec, h with
  | _ :: _, _ => rfl

/-- The INSERT branch, fed a full record's dict, writes back exactly the
record. -/
lemma insertRowOf_toDict (rec : Row) (h : rec.length = COLUMNS.length) :
    insertRowOf (Row.toDict rec) = rec :=
  match rec, h with
  | [_,_,_,_,_,_,_,_,_,_,_,_,_,_,_,_,_,_,_,_], _ => rfl

/-- The UPDATE branch, fed a full record's dict, replaces every cell of the
stored row with the record's: the result does not depend on the old row. -/
lemma updateRow_toDict (rec row : Row) (h : rec.length = COLUMNS.length)
    (hrow : row.length = COLUMNS.length) :
    updateRow (Row.toDict rec) row = rec :=
  match rec, row, h, hrow with
  | [_,_,_,_,_,_,_,_,_,_,_,_,_,_,_,_,_,_,_,_],
    [_,_,_,_,_,_,_,_,_,_,_,_,_,_,_,_,_,_,_,_], _, _ => rfl

/-- After upserting a full record into a table holding at most one row with
its serial number, the rows carrying that serial number are exactly the
record itself. -/
lemma save_filter_eq (rec : Row) (hlen : rec.length = COLUMNS.length) :
    ∀ db : DB, WF db →
      (db.filter (fun row => rowSNo row == rowSNo rec)).length ≤ 1 →
      (save_row_to_db db (Row.toDict rec)).filter
        (fun row => rowSNo row == rowSNo rec) = [rec] := by
  have hs : dictSNo (Row.toDict rec) = rowSNo rec := dictSNo_toDict rec hlen
  intro db
  induction db with
  | nil =>
      intro _ _
      simp only [save_row_to_db, insertRowOf_toDict rec hlen]
      simp [List.filter_cons]
  | cons r rest ih =>
      intro hwf hcount
      by_cases hm : rowSNo r = dictSNo (Row.toDict rec)
      · have hr : (rowSNo r == rowSNo rec) = true := by
          rw [hm, hs]; exact beq_self_eq_true _
        simp only [save_row_to_db, if_pos hm,
          updateRow_toDict rec r hlen (hwf r (List.mem_cons_self r rest))]
        have hrest : rest.filter (fun row => rowSNo row == rowSNo rec) = [] := by
          simp only [List.filter_cons, hr, if_pos, List.length_cons] at hcount
          exact List.length_eq_zero.mp (by omega)
        simp [List.filter_cons, hrest]
      · have hr : (rowSNo r == rowSNo rec) = false := by
          rw [hs] at hm
          exact beq_eq_false_iff_ne.mpr hm
        simp only [save_row_to_db, if_neg hm, List.filter_cons, hr]
        simp only [Bool.false_eq_true, if_neg (by simp : ¬False)]
        refine ih (fun x hx => hwf x (List.mem_cons_of_mem r hx)) ?_
        simpa only [List.filter_cons, hr, Bool.false_eq_true, if_false] using hcount

/-- Upserting the same full record twice is the same as upserting it once. -/
lemma save_idem (rec : Row) (hlen : rec.length = COLUMNS.length) :
    ∀ db : DB, WF db →
      save_row_to_db (save_row_to_db db (Row.toDict rec)) (Row.toDict rec)
        = save_row_to_db db (Row.toDict rec) := by
  have hs : dictSNo (Row.toDict rec) = rowSNo rec := dictSNo_toDict rec hlen
  intro db
  induction db with
  | nil =>
      intro _
      simp only [save_row_to_db, insertRowOf_toDict rec hlen]
      rw [if_pos hs.symm, updateRow_toDict rec rec hlen hlen]
  | cons r rest ih =>
      intro hwf
      by_cases hm : rowSNo r = dictSNo (Row.toDict rec)
      · simp only [save_row_to_db, if_pos hm,
          updateRow_toDict rec r hlen (hwf r (List.mem_cons_self r rest))]
        rw [if_pos hs.symm, updateRow_toDict rec rec hlen hlen]
      · simp only [save_row_to_db, if_neg hm]
        rw [ih fun x hx => hwf x (List.mem_cons_of_mem r hx)]

/-! ## Lemmas about the rounding -/

/-- Half-even rounding of a rational at most `-1` stays at most `-1`. -/
lemma roundHalfEvenQ_le_neg_one {y : ℚ} (h : y ≤ -1) : roundHalfEvenQ y ≤ -1 := by
  have hfl : (⌊y⌋ : ℚ) ≤ y := Int.floor_le y
  have hf : ⌊y⌋ ≤ -1 := by
    have h2 : (⌊y⌋ : ℚ) ≤ -1 := le_trans hfl h
    exact_mod_cast h2
  unfold roundHalfEvenQ
  split_ifs with h1 h2 h3
  · exact hf
  · have h4 : (⌊y⌋ : ℚ) < -1 := by linarith
    have h5 : ⌊y⌋ < -1 := by exact_mod_cast h4
    omega
  · exact hf
  · have heq : y - ⌊y⌋ = 1 / 2 := le_antisymm (not_lt.mp h2) (not_lt.mp h1)
    have h4 : (⌊y⌋ : ℚ) < -1 := by linarith
    have h5 : ⌊y⌋ < -1 := by exact_mod_cast h4
    omega

/-- A difference of at least a cent below zero survives the two-decimal
rounding as a strictly negative balance. -/
lemma round2_neg {q : ℚ} (h : q ≤ -(1 / 100)) : round2 q < 0 := by
  have h1 : q * 100 ≤ -1 := by linarith
  have h2 : roundHalfEvenQ (q * 100) ≤ -1 := roundHalfEvenQ_le_neg_one h1
  have h3 : ((roundHalfEvenQ (q * 100) : ℚ)) < 0 := by
    have : ((roundHalfEvenQ (q * 100) : ℚ)) ≤ -1 := by exact_mod_cast h2
    linarith
  exact div_neg_of_neg_of_pos h3 (by norm_num)

/-! ## The claims -/

/-- C1: `save_row_to_db` looks the persisted row up by the incoming
record's serial number compared as text (`dictSNo` is the `str(...)` of the
dict entry, `rowSNo` the stored text cell). Zero matches fall through to an
insert at the end of the table; when there are matches — one or several —
the first one is rewritten and the rest are untouched; and for a full
record the rewrite replaces every field with the record's own
(independently of the old row). Both branches are plain total list
operations: no case raises. -/
theorem upsert_first_match_or_insert :
    (∀ (db : DB) (rd : RowDict),
        (∀ r ∈ db, rowSNo r ≠ dictSNo rd) →
        save_row_to_db db rd = db ++ [insertRowOf rd]) ∧
    (∀ (rd : RowDict) (pre : DB) (row : Row) (post : DB),
        (∀ r ∈ pre, rowSNo r ≠ dictSNo rd) → rowSNo row = dictSNo rd →
        save_row_to_db (pre ++ row :: post) rd = pre ++ updateRow rd row :: post) ∧
    (∀ rec row : Row, rec.length = COLUMNS.length → row.length = COLUMNS.length →
        updateRow (Row.toDict rec) row = rec) :=
  ⟨save_of_no_match, save_of_first_match, updateRow_toDict⟩

/-- Witness for C1: a concrete insert (no row keyed "1"), a concrete
first-match update leaving a second match alone, and a concrete full-row
replace. -/
theorem upsert_first_match_or_insert_witness :
    (save_row_to_db [["2"]] [("S No.", some "1")]
        = [["2"]] ++ [insertRowOf [("S No.", some "1")]]) ∧
    (save_row_to_db ([["2"]] ++ ["1"] :: [["1"]]) [("S No.", some "1")]
        = [["2"]] ++ updateRow [("S No.", some "1")] ["1"] :: [["1"]]) ∧
    updateRow
        (Row.toDict ["1","a","b","c","d","e","f","g","h","i","j","k","l","m","n","o","p","q","r","s"])
        ["9","x","x","x","x","x","x","x","x","x","x","x","x","x","x","x","x","x","x","x"]
      = ["1","a","b","c","d","e","f","g","h","i","j","k","l","m","n","o","p","q","r","s"] :=
  ⟨upsert_first_match_or_insert.1 _ _ (by decide),
   upsert_first_match_or_insert.2.1 _ _ _ _ (by decide) (by decide),
   upsert_first_match_or_insert.2.2 _ _ (by decide) (by decide)⟩

/-- C2: upsert-then-load round trip. In a well-formed table holding at
most one row with the record's serial number, after `save_row_to_db` a
`load_df_from_db` holds exactly one row carrying that serial number, and
it is the record itself, every field included. -/
theorem upsert_load_roundtrip (db : DB) (rec : Row) (hwf : WF db)
    (hlen : rec.length = COLUMNS.length)
    (hcount : ((load_df_from_db db).filter
        (fun row => rowSNo row == rowSNo rec)).length ≤ 1) :
    (load_df_from_db (save_row_to_db db (Row.toDict rec))).filter
      (fun row => rowSNo row == rowSNo rec) = [rec] :=
  save_filter_eq rec hlen db hwf hcount

/-- Witness for C2: upserting a full record keyed "1" into a table holding
one row keyed "2". -/
theorem upsert_load_roundtrip_witness :
    (load_df_from_db (save_row_to_db
        [["2","","","","","","","","","","","","","","","","","","",""]]
        (Row.toDict ["1","a","b","c","d","e","f","g","h","i","j","k","l","m","n","o","p","q","r","s"]))).filter
      (fun row => rowSNo row ==
        rowSNo ["1","a","b","c","d","e","f","g","h","i","j","k","l","m","n","o","p","q","r","s"])
    = [["1","a","b","c","d","e","f","g","h","i","j","k","l","m","n","o","p","q","r","s"]] :=
  upsert_load_roundtrip _ _ (by decide) (by decide) (by decide)

/-- C3: upsert is idempotent on full records over a well-formed table —
the second upsert finds the row the first one wrote and rewrites it with
the same values, so no duplicate appears. -/
theorem upsert_idempotent (db : DB) (rec : Row) (hwf : WF db)
    (hlen : rec.length = COLUMNS.length) :
    save_row_to_db (save_row_to_db db (Row.toDict rec)) (Row.toDict rec)
      = save_row_to_db db (Row.toDict rec) :=
  save_idem rec hlen db hwf

/-- Witness for C3: double upsert of a concrete record into the empty
table (the second pass takes the update branch on the row the first pass
inserted). -/
theorem upsert_idempotent_witness :
    save_row_to_db (save_row_to_db []
        (Row.toDict ["3","a","b","c","d","e","f","g","h","i","j","k","l","m","n","o","p","q","r","s"]))
      (Row.toDict ["3","a","b","c","d","e","f","g","h","i","j","k","l","m","n","o","p","q","r","s"])
    = save_row_to_db []
        (Row.toDict ["3","a","b","c","d","e","f","g","h","i","j","k","l","m","n","o","p","q","r","s"]) :=
  upsert_idempotent _ _ (by decide) (by decide)

/-- C10 (amended): every value `save_row_to_db` persists is a string. On
the insert branch the cell for column `c` is `str(row_dict.get(c, ""))` —
the empty string for an absent column but the four-character string
`"None"` for a column explicitly bound to `None`; on the update branch a
column bound to `None` is stored as the empty string and an absent column
keeps its old cell. -/
theorem save_values_text_amended : ∀ (db : DB) (rd : RowDict),
    ((∀ r ∈ db, rowSNo r ≠ dictSNo rd) →
      save_row_to_db db rd = db ++ [COLUMNS.map (fun c =>
        match List.lookup c rd with
        | none => ""
        | some none => "None"
        | some (some s) => s)]) ∧
    (∀ (pre : DB) (row : Row) (post : DB), db = pre ++ row :: post →
      (∀ r ∈ pre, rowSNo r ≠ dictSNo rd) → rowSNo row = dictSNo rd →
      save_row_to_db db rd = pre ++ ((COLUMNS.zip row).map (fun p =>
        match List.lookup p.1 rd with
        | none => p.2
        | some none => ""
        | some (some s) => s)) :: post) := by
  intro db rd
  refine ⟨fun h => save_of_no_match db rd h,
          fun pre row post hdb hpre hm => ?_⟩
  subst hdb
  exact save_of_first_match rd pre row post hpre hm

/-- Witness for C10: a concrete insert (column bound to `None` stored as
`"None"`) and a concrete update (column bound to `None` cleared to `""`). -/
theorem save_values_text_amended_witness :
    (save_row_to_db [] [("S No.", some "1"), ("Client Name", none)]
      = [] ++ [COLUMNS.map (fun c =>
          match List.lookup c [("S No.", some "1"), ("Client Name", none)] with
          | none => ""
          | some none => "None"
          | some (some s) => s)]) ∧
    (save_row_to_db [["1", "x"]] [("S No.", some "1"), ("Billboard ID", none)]
      = [] ++ ((COLUMNS.zip ["1", "x"]).map (fun p =>
          match List.lookup p.1 [("S No.", some "1"), ("Billboard ID", none)] with
          | none => p.2
          | some none => ""
          | some (some s) => s)) :: []) :=
  ⟨(save_values_text_amended [] _).1 (by decide),
   (save_values_text_amended [["1", "x"]] _).2 [] ["1", "x"] [] rfl
     (by decide) (by decide)⟩

/-- Counterexample for C10 as stated: inserting a dict that binds
"Client Name" to Python `None` stores the string `"None"` in that cell,
not the empty string. -/
theorem save_none_counterexample :
    getField ((save_row_to_db [] [("S No.", some "1"), ("Client Name", none)]).getD 0 [])
        "Client Name" = "None" ∧ ("None" : String) ≠ "" :=
  ⟨rfl, by decide⟩

/-- Evaluation: `round(-0.001, 2) = 0` (the tiny excess rounds away). -/
lemma round2_neg_milli : round2 (-(1 / 1000)) = 0 := by
  have hfl : ⌊((-(1 / 1000) : ℚ) * 100)⌋ = -1 := by
    rw [show ((-(1 / 1000) : ℚ) * 100) = -(1 / 10) by norm_num]
    rw [Int.floor_eq_iff]
    constructor <;> norm_num
  unfold round2 roundHalfEvenQ
  rw [hfl, if_neg (by norm_num), if_pos (by norm_num)]
  norm_num

/-- Evaluation: `round(100 - 150, 2) = -50`. -/
lemma round2_neg_fifty : round2 ((100 : ℚ) - 150) = -50 := by
  rw [show ((100 : ℚ) - 150) = -50 by norm_num]
  have hfl : ⌊((-50 : ℚ) * 100)⌋ = -5000 := by
    rw [show ((-50 : ℚ) * 100) = ((-5000 : ℤ) : ℚ) by norm_num]
    exact Int.floor_intCast _
  unfold round2 roundHalfEvenQ
  rw [hfl, if_pos (by norm_num)]
  norm_num

/-- Evaluation of the two coercions of the C4 counterexample input. -/
lemma safe_float_zero_text : safe_float (some "0") = 0 := by
  rw [show safe_float (some "0") = ((0 : ℕ) : ℚ) from rfl]
  norm_num

/-- Evaluation: `safe_float "0.001" = 1/1000`. -/
lemma safe_float_milli_text : safe_float (some "0.001") = 1 / 1000 := by
  rw [show safe_float (some "0.001")
        = ((0 : ℕ) : ℚ) + ((1 : ℕ) : ℚ) / 10 ^ (3 : ℕ) from rfl]
  norm_num

/-- C4 (amended): on both save paths the Balance cell's value is
`round(rent - adv, 2)` from the row's current rent and advance — the
inline-edit loop takes them from the grid texts through `safe_float`, the
"Apply changes" handler from its two number inputs — and there is no floor
at zero: whenever the advance exceeds the rent by at least one cent the
stored balance is strictly negative (e.g. rent 100, advance 150 gives
−50). An excess under half a cent, however, rounds to zero rather than a
negative balance. -/
theorem balance_round_amended :
    (∀ row : Row, inline_balance row =
        round2 (safe_float (some (getField row "Rent Amount (PKR)")) -
                safe_float (some (getField row "Advance Received (PKR)")))) ∧
    (∀ rent adv : ℚ, apply_changes_balance rent adv = round2 (rent - adv)) ∧
    (∀ rent adv : ℚ, rent + 1 / 100 ≤ adv → apply_changes_balance rent adv < 0) ∧
    apply_changes_balance 100 150 = -50 :=
  ⟨fun _ => rfl, fun _ _ => rfl,
   fun _ _ h => round2_neg (by linarith), round2_neg_fifty⟩

/-- Witness for C4 (amended): a one-cent and a fifty-unit excess both give
a negative stored balance. -/
theorem balance_round_amended_witness :
    apply_changes_balance 100 150 = round2 (100 - 150) ∧
    apply_changes_balance 0 (1 / 100) < 0 :=
  ⟨balance_round_amended.2.1 100 150,
   balance_round_amended.2.2.1 0 (1 / 100) (by norm_num)⟩

/-- Counterexample for C4 as stated: on the inline save path, with rent
text "0" and advance text "0.001" the advance is greater than the rent and
yet the stored balance is 0, not negative (`round(-0.001, 2) = 0`). -/
theorem balance_negative_counterexample :
    safe_float (some "0") < safe_float (some "0.001") ∧
    inline_balance ["1","","","","","","","","","","","0","0.001","","","","","","",""] = 0 ∧
    ¬ inline_balance ["1","","","","","","","","","","","0","0.001","","","","","","",""] < 0 := by
  have hb : inline_balance ["1","","","","","","","","","","","0","0.001","","","","","","",""]
      = round2 (safe_float (some "0") - safe_float (some "0.001")) := rfl
  have hval : safe_float (some "0") - safe_float (some "0.001") = -(1 / 1000) := by
    rw [safe_float_zero_text, safe_float_milli_text]; norm_num
  have h0 : inline_balance ["1","","","","","","","","","","","0","0.001","","","","","","",""] = 0 := by
    rw [hb, hval, round2_neg_milli]
  refine ⟨?_, h0, by rw [h0]; exact lt_irrefl 0⟩
  rw [safe_float_zero_text, safe_float_milli_text]
  norm_num

/-- C5: `safe_float` strips every comma and the surrounding whitespace and
returns the decimal the cleaned text parses to, and returns 0.0 for the
missing value, the empty text, and any text that does not parse —
including the three specified instances. -/
theorem safe_float_spec :
    (∀ s q, parseDecimal (cleanNumText s) = some q → safe_float (some s) = q) ∧
    (∀ s, parseDecimal (cleanNumText s) = none → safe_float (some s) = 0) ∧
    safe_float none = 0 ∧
    safe_float (some "") = 0 ∧
    safe_float (some "1,234.50") = 1234.50 ∧
    safe_float (some "abc") = 0 := by
  refine ⟨?_, ?_, rfl, rfl, ?_, rfl⟩
  · intro s q h
    by_cases hs : s = ""
    · rw [hs] at h
      rw [show parseDecimal (cleanNumText "") = none from rfl] at h
      simp at h
    · simp only [safe_float, safe_floatE, safe_floatBody, if_neg hs, h]
  · intro s h
    by_cases hs : s = ""
    · rw [hs]; rfl
    · simp only [safe_float, safe_floatE, safe_floatBody, if_neg hs, h]
  · rw [show safe_float (some "1,234.50")
          = ((1234 : ℕ) : ℚ) + ((50 : ℕ) : ℚ) / 10 ^ (2 : ℕ) from rfl]
    norm_num

/-- Witness for C5: a parse with comma and whitespace stripping, and a
parse failure recovered to 0. -/
theorem safe_float_spec_witness :
    safe_float (some " 2,5 ") = 25 ∧ safe_float (some "--3") = 0 := by
  constructor
  · rw [safe_float_spec.1 " 2,5 " ((25 : ℕ) : ℚ) rfl]; norm_num
  · exact safe_float_spec.2.1 "--3" rfl

/-- C6: `calc_days_remaining` returns the empty value on empty text and on
any text the day-first parse coerces to `NaT`, and otherwise the signed
day count from today to the parsed date — negative for expired contracts:
with today = 2026-10-12, "11/10/2026" (day-first: 11 Oct) gives −1 and
"19/10/2026" gives 7 — and ambiguous numeric dates prefer the day-first
reading ("02/03/2026" is 2 March 2026). -/
theorem calc_days_remaining_spec :
    (∀ today : ℤ, calc_days_remaining today (some "") = none) ∧
    (∀ (today : ℤ) (s : String), parseDateDayFirst s = none →
        calc_days_remaining today (some s) = none) ∧
    (∀ (today : ℤ) (s : String) (d : ℤ), parseDateDayFirst s = some d →
        calc_days_remaining today (some s) = some (d - today)) ∧
    calc_days_remaining (daysFromCivil 2026 10 12) (some "11/10/2026") = some (-1) ∧
    calc_days_remaining (daysFromCivil 2026 10 12) (some "19/10/2026") = some 7 ∧
    parseDateDayFirst "02/03/2026" = some (daysFromCivil 2026 3 2) := by
  have hempty : ∀ s : String, pyStrip s.data = [] → parseDateDayFirst s = none := by
    intro s hnil
    unfold parseDateDayFirst
    rw [hnil]
    rfl
  refine ⟨fun _ => rfl, ?_, ?_, by decide, by decide, by decide⟩
  · intro today s h
    by_cases hs : s = ""
    · rw [hs]; rfl
    · simp only [calc_days_remaining, calc_days_remainingE, calc_days_remainingBody,
        if_neg hs]
      cases hemp : (pyStrip s.data).isEmpty <;> simp [hemp, h]
  · intro today s d h
    have hs : s ≠ "" := by
      intro he
      rw [he, show parseDateDayFirst "" = none from rfl] at h
      simp at h
    simp only [calc_days_remaining, calc_days_remainingE, calc_days_remainingBody,
      if_neg hs]
    cases hemp : (pyStrip s.data).isEmpty with
    | true =>
        have hnil : pyStrip s.data = [] := by
          cases hl : pyStrip s.data with
          | nil => rfl
          | cons a t => rw [hl] at hemp; simp [List.isEmpty] at hemp
        rw [hempty s hnil] at h
        simp at h
    | false => simp [hemp, h]

/-- Witness for C6: a date that parses under neither reading gives the
empty value, and a parsed day-first date gives the signed day count. -/
theorem calc_days_remaining_spec_witness :
    calc_days_remaining 0 (some "31/31/2026") = none ∧
    calc_days_remaining (daysFromCivil 2026 1 1) (some "2/1/2026") = some 1 := by
  constructor
  · exact calc_days_remaining_spec.2.1 0 "31/31/2026" (by decide)
  · rw [calc_days_remaining_spec.2.2.1 (daysFromCivil 2026 1 1) "2/1/2026"
      (daysFromCivil 2026 1 2) (by decide)]
    decide

/-- C8: initializing the empty store seeds exactly the 50 blank rows
numbered 1..50, which `load_df_from_db` returns in ascending
serial-number order with every non-key field empty; initializing a
non-empty store changes nothing. -/
theorem init_db_seeds :
    (init_db [] = seedRows) ∧
    (load_df_from_db (init_db [])).length = 50 ∧
    ((load_df_from_db (init_db [])).map rowSNo
        = (List.range 50).map (fun i => toString (i + 1))) ∧
    (∀ i : ℕ, i < 49 →
        digitsToNat (rowSNo ((load_df_from_db (init_db [])).getD i [])).data <
        digitsToNat (rowSNo ((load_df_from_db (init_db [])).getD (i + 1) [])).data) ∧
    (∀ row ∈ load_df_from_db (init_db []), List.tail row = List.replicate 19 "") ∧
    (∀ i : ℕ, i < 50 → (load_df_from_db (init_db [])).getD i []
        = toString (i + 1) :: List.replicate 19 "") ∧
    (∀ db : DB, db ≠ [] → init_db db = db) := by
  refine ⟨rfl, by decide, by decide, by decide, by decide, by decide, ?_⟩
  intro db h
  simp only [init_db]
  exact if_neg fun hc => h (List.length_eq_zero.mp hc)

/-- Witness for C8: the last seeded row, and a non-empty store left
untouched. -/
theorem init_db_seeds_witness :
    (load_df_from_db (init_db [])).getD 49 [] = toString (49 + 1) :: List.replicate 19 "" ∧
    init_db [["9"]] = [["9"]] :=
  ⟨init_db_seeds.2.2.2.2.2.1 49 (by decide),
   init_db_seeds.2.2.2.2.2.2 [["9"]] (by decide)⟩

/-- C9: both coercions are total and silent — with the `try/except`
modelled in `Except`, every input produces `Except.ok`: each parse
failure is recovered to the default (0.0, or the empty value) and no
error reaches the caller. -/
theorem coercions_total :
    (∀ x : Option String, ∃ v : ℚ, safe_floatE x = Except.ok v) ∧
    (∀ (today : ℤ) (x : Option String), ∃ v : Option ℤ,
        calc_days_remainingE today x = Except.ok v) := by
  constructor
  · intro x
    cases hb : safe_floatBody x with
    | ok v => exact ⟨v, by simp [safe_floatE, hb]⟩
    | error e => exact ⟨0, by simp [safe_floatE, hb]⟩
  · intro today x
    cases hb : calc_days_remainingBody today x with
    | ok v => exact ⟨v, by simp [calc_days_remainingE, hb]⟩
    | error e => exact ⟨none, by simp [calc_days_remainingE, hb]⟩

end Billboard
